import Mathlib

/-!
Verification of the SnmpLibrary SNMP client (src/SnmpLibrary/__init__.py).

The Python source is shallowly embedded: OID strings are handled as lists of
characters, the mutable session object becomes an explicit `Session` record
threaded through the operations, the pysnmp command generator becomes a
transport oracle passed as a function argument, and every Python `raise`
becomes an `Except.error` carrying a typed error with the raised message.
Each request operation additionally returns the list of transport exchanges
it performed, so that claims about which exchanges happen (and with which
host/port/community) are directly statable.

One lexical repair was needed to read the source at all: the `raise` on the
GET error-indication branch is missing its closing parenthesis; it is read as
the evidently intended `raise RuntimeError('SNMP GET failed: %s' %
error_indication)`.  All semantic defects of the source (the unbound name
`Null` in that same branch, the unbound name `oid` in `set_octetstring`,
the missing host check and the hard-coded port 161 in `set`) are embedded
exactly as the source has them.
-/

set_option autoImplicit false

namespace SnmpLib

/-- Errors of the embedded program.  The Python source raises `RuntimeError`
with distinguishing messages for the documented failure kinds; the spec names
those kinds, and each constructor carries the raised message.  `valueError`
and `nameError` stand for the Python `ValueError` and `NameError` exceptions,
which are outside the documented taxonomy. -/
inductive Err where
  | notConfigured (msg : String)
  | pathNotFound (msg : String)
  | unknownSymbol (msg : String)
  | rangeError (msg : String)
  | formatError (msg : String)
  | transportError (msg : String)
  | agentError (msg : String)
  | objectNotFound (msg : String)
  | valueError (msg : String)
  | nameError (msg : String)
deriving DecidableEq, Repr

/-- Whether an error belongs to the documented error taxonomy of the spec
(section 7).  Python-level `ValueError`/`NameError` do not. -/
def Err.isDocumented : Err → Bool
  | .valueError _ => false
  | .nameError _ => false
  | _ => true

/-- One component of a parsed OID tuple: an integer segment, a string segment
kept verbatim after a failed integer parse, or the `(mib, symbol)` pair that
heads the tuple in the symbolic notations. -/
inductive OidComp where
  | num (n : Int)
  | str (s : List Char)
  | pair (mib sym : List Char)
deriving DecidableEq, Repr

/-- Splits a character list at the first occurrence of the character `c`,
returning the pieces before and after it, or `none` when `c` does not occur.
This models the Python `s.split(sep, 1)` call together with its result arity:
`none` corresponds to the one-element result list. -/
def splitOnceChar (c : Char) : List Char → Option (List Char × List Char)
  | [] => none
  | x :: xs =>
    if x = c then some ([], xs)
    else (splitOnceChar c xs).map (fun p => (x :: p.1, p.2))

/-- Full split of a character list on the character `c`, modelling the Python
`s.split(sep)` call: `[] ↦ [[]]`, separators at the ends produce empty
pieces, and the result is never empty. -/
def splitOnChar (c : Char) : List Char → List (List Char)
  | [] => [[]]
  | x :: xs =>
    if x = c then [] :: splitOnChar c xs
    else
      match splitOnChar c xs with
      | [] => [[x]]
      | a :: rest => (x :: a) :: rest

/-- Splits at the first occurrence of the two-character separator `a b`,
modelling the Python `s.split('::', 1)` call (and, via `isSome`, the
`'::' in s` test).  Scanning is left to right, as in Python. -/
def splitOnce2 (a b : Char) : List Char → Option (List Char × List Char)
  | [] => none
  | [_] => none
  | x :: y :: rest =>
    if x = a ∧ y = b then some ([], rest)
    else (splitOnce2 a b (y :: rest)).map (fun p => (x :: p.1, p.2))

/-- Strips leading and trailing whitespace, as Python `int()` does before
parsing its string argument. -/
def stripWs (l : List Char) : List Char :=
  ((l.dropWhile Char.isWhitespace).reverse.dropWhile Char.isWhitespace).reverse

/-- Reads a non-empty all-digit character list as a natural number; `none`
otherwise. -/
def digitsToNat? (l : List Char) : Option Nat :=
  if l ≠ [] ∧ l.all Char.isDigit then
    some (l.foldl (fun acc c => acc * 10 + (c.toNat - '0'.toNat)) 0)
  else none

/-- The Python `int(s)` conversion on a string: optional surrounding
whitespace, an optional sign, then decimal digits; `none` models the raised
`ValueError`. -/
def pyInt? (l : List Char) : Option Int :=
  match stripWs l with
  | '-' :: ds => (digitsToNat? ds).map (fun n => -(n : Int))
  | '+' :: ds => (digitsToNat? ds).map (fun n => (n : Int))
  | ds => (digitsToNat? ds).map (fun n => (n : Int))

/-- Embedding of the module-level `try_int` helper: attempt an integer parse
and silently keep the string on failure. -/
def try_int (l : List Char) : OidComp :=
  match pyInt? l with
  | some n => .num n
  | none => .str l

/-- Embedding of the shared tail of `_parse_oid` (the `if oid is None:`
block): `sym, suffixes = sym.split('.', 1)` — a `ValueError` when the split
yields a single element — then `suffixes.split('.')` mapped by `try_int`,
prefixed by the `(mib, sym)` pair. -/
def parseSymPart (mib sym : List Char) : Except Err (List OidComp) :=
  match splitOnceChar '.' sym with
  | none => .error (.valueError "need more than 1 value to unpack")
  | some (sym1, suffixes) =>
      .ok (.pair mib sym1 :: (splitOnChar '.' suffixes).map try_int)

/-- Embedding of `SnmpLibrary._parse_oid`: dispatch on `'::' in oid` first,
then on a leading `'.'`, else treat the whole string as symbol plus suffix
with an empty module name. -/
def parse_oid_chars (oid : List Char) : Except Err (List OidComp) :=
  match splitOnce2 ':' ':' oid with
  | some (mib, sym) => parseSymPart mib sym
  | none =>
    match oid with
    | '.' :: rest => .ok ((splitOnChar '.' rest).map try_int)
    | l => parseSymPart [] l

/-- Spec-side description of the symbolic-branch result, following the
claim's words: split the symbol+suffix text on every dot; the first segment
is the symbol, the remaining segments are the suffix components, each mapped
by the attempt-integer-parse; when there is no remaining segment the
single-element unpacking raises `ValueError`. -/
def resolveSymSpec (mib sym : List Char) : Except Err (List OidComp) :=
  match splitOnChar '.' sym with
  | s1 :: s2 :: sfx => .ok (.pair mib s1 :: (s2 :: sfx).map try_int)
  | _ => .error (.valueError "need more than 1 value to unpack")

/-- The mutable state of an `SnmpLibrary` instance: `self._host` (initially
`None`), `self._port`, `self._community`, and the MIB builder's search path.
`self._port` and `self._community` are only assigned by their setters; the
embedding keeps them as a defaulted field and an `Option`. -/
structure Session where
  host : Option String
  port : Nat
  community : Option String
  mibPath : List String
deriving DecidableEq, Repr

/-- The freshly constructed library instance: `self._host = None`, nothing
else configured, and the builder's search path taken as empty. -/
def initSession : Session :=
  { host := none, port := 161, community := none, mibPath := [] }

/-- Embedding of `set_host(host, port=161)`. -/
def set_host (s : Session) (host : String) (port : Nat) : Session :=
  { s with host := some host, port := port }

/-- Embedding of `set_community_string(community)`. -/
def set_community_string (s : Session) (community : String) : Session :=
  { s with community := some community }

/-- Embedding of `add_mib_search_path(path)`: `os.path.exists` becomes the
oracle `pathExists`; the raise happens before any mutation, so the state
returned alongside the error is the unchanged input state. -/
def add_mib_search_path (pathExists : String → Bool) (s : Session) (path : String) :
    Session × Option Err :=
  if pathExists path = false then
    (s, some (.pathNotFound ("Path \"" ++ path ++ "\" does not exist")))
  else
    ({ s with mibPath := s.mibPath ++ [path] }, none)

/-- The truthiness test `if not self._host:` — `None` and the empty string
are both falsy. -/
def hostFalsy : Option String → Bool
  | none => true
  | some h => h == ""

/-- The tagged SNMP value variants of the rfc1902 module, plus the
distinguished `Null` (`univ.Null('')`) used for "no such object". -/
inductive SnmpObj where
  | null
  | octetString (s : List Char)
  | integer (n : Int)
  | integer32 (n : Int)
  | counter32 (n : Int)
  | counter64 (n : Int)
  | gauge32 (n : Int)
  | unsigned32 (n : Int)
  | timeTicks (n : Int)
deriving DecidableEq, Repr

/-- An agent-reported error status together with its `prettyPrint()`
rendering (the rendering belongs to the external pysnmp library, so the
transport oracle supplies it). -/
structure ErrStatus where
  val : Nat
  pretty : String
deriving DecidableEq, Repr

/-- What one `getCmd`/`setCmd` exchange returns: the error indication (a
transport or timeout failure when non-null), the error status, and the
variable bindings of the response. -/
structure SnmpResponse where
  errorIndication : Option String
  errorStatus : ErrStatus
  varBinds : List (List Nat × SnmpObj)
deriving DecidableEq, Repr

/-- The external UDP transport for GET exchanges, as consulted by
`cmdgen.CommandGenerator(...).getCmd(community, UdpTransportTarget((host,
port)), oid)`. -/
def GetTransport : Type :=
  Option String → Nat → Option String → List OidComp → SnmpResponse

/-- The external UDP transport for SET exchanges (`setCmd`), additionally
receiving the value of the single OID/value pair. -/
def SetTransport : Type :=
  Option String → Nat → Option String → List OidComp → SnmpObj → SnmpResponse

/-- A record of one GET exchange actually issued: the connection parameters
handed to the transport. -/
structure GetCall where
  host : Option String
  port : Nat
  community : Option String
  oid : List OidComp
deriving DecidableEq, Repr

/-- A record of one SET exchange actually issued. -/
structure SetCall where
  host : Option String
  port : Nat
  community : Option String
  oid : List OidComp
  value : SnmpObj
deriving DecidableEq, Repr

/-- Embedding of `get(oid)`.  The result is paired with the list of
transport exchanges performed.  After the exchange the source tests
`if error_indication is not Null:` — the name `Null` is unbound in the
module, so evaluating the condition raises `NameError` on every path,
before the error-status test, the extraction of `var[0]` and the
`univ.Null('')` comparison further down can run. -/
def get (tr : GetTransport) (s : Session) (oidExpr : String) :
    Except Err String × List GetCall :=
  if hostFalsy s.host then (.error (.notConfigured "No host set"), [])
  else
    match parse_oid_chars oidExpr.data with
    | .error e => (.error e, [])
    | .ok oid =>
      let _r := tr s.host s.port s.community oid
      let call : GetCall :=
        { host := s.host, port := s.port, community := s.community, oid := oid }
      (.error (.nameError "global name 'Null' is not defined"), [call])

/-- Embedding of `set(oid, value)`.  The source performs no host check, it
discards the error indication of the exchange (binding it to `_`), and it
addresses the transport with the literal port `161` rather than
`self._port`. -/
def set (tr : SetTransport) (s : Session) (oidExpr : String) (value : SnmpObj) :
    Except Err Unit × List SetCall :=
  match parse_oid_chars oidExpr.data with
  | .error e => (.error e, [])
  | .ok oid =>
    let r := tr s.host 161 s.community oid value
    let call : SetCall :=
      { host := s.host, port := 161, community := s.community, oid := oid,
        value := value }
    if r.errorStatus.val ≠ 0 then
      (.error (.agentError ("SNMP SET failed: " ++ r.errorStatus.pretty)), [call])
    else (.ok (), [call])

/-- A raw value handed to the conversion helpers: a Python int or str. -/
inductive RawValue where
  | int (n : Int)
  | str (s : List Char)
deriving DecidableEq, Repr

/-- Modelled from the spec: coercion of a raw value to an integer as the
rfc1902 integer constructors (external pysnmp/pyasn1 code) perform it —
ints pass through, numeric strings are parsed, anything else fails with
`FormatError` (spec section 4.1). -/
def coerceToInt (v : RawValue) : Except Err Int :=
  match v with
  | .int n => .ok n
  | .str s =>
    match pyInt? s with
    | some n => .ok n
    | none => .error (.formatError "value cannot be coerced to an integer")

/-- Signed 32-bit range test used by the Integer32 codec. -/
def i32InRange (n : Int) : Bool :=
  decide (-(2 ^ 31) ≤ n) && decide (n ≤ 2 ^ 31 - 1)

/-- Unsigned 32-bit range test used by the Counter32/Gauge32/Unsigned32/
TimeTicks codecs. -/
def u32InRange (n : Int) : Bool :=
  decide (0 ≤ n) && decide (n ≤ 2 ^ 32 - 1)

/-- Unsigned 64-bit range test used by the Counter64 codec. -/
def u64InRange (n : Int) : Bool :=
  decide (0 ≤ n) && decide (n ≤ 2 ^ 64 - 1)

/-- Embedding of `convert_to_octetstring`; modelled from the spec: the
rfc1902.OctetString constructor is external, accepting byte strings. -/
def convert_to_octetstring (v : RawValue) : Except Err SnmpObj :=
  match v with
  | .str s => .ok (.octetString s)
  | .int _ => .error (.formatError "OctetString expects a byte string")

/-- Embedding of `convert_to_integer`; modelled from the spec: rfc1902's
unconstrained Integer. -/
def convert_to_integer (v : RawValue) : Except Err SnmpObj :=
  match coerceToInt v with
  | .error e => .error e
  | .ok n => .ok (.integer n)

/-- Embedding of `convert_to_integer32`; modelled from the spec: signed
32-bit range, `RangeError` outside it. -/
def convert_to_integer32 (v : RawValue) : Except Err SnmpObj :=
  match coerceToInt v with
  | .error e => .error e
  | .ok n =>
    if i32InRange n then .ok (.integer32 n)
    else .error (.rangeError "Integer32 value out of range")

/-- Embedding of `convert_to_counter32`; modelled from the spec: unsigned
32-bit range, `RangeError` outside it. -/
def convert_to_counter32 (v : RawValue) : Except Err SnmpObj :=
  match coerceToInt v with
  | .error e => .error e
  | .ok n =>
    if u32InRange n then .ok (.counter32 n)
    else .error (.rangeError "Counter32 value out of range")

/-- Embedding of `convert_to_counter64`; modelled from the spec: unsigned
64-bit range, `RangeError` outside it. -/
def convert_to_counter64 (v : RawValue) : Except Err SnmpObj :=
  match coerceToInt v with
  | .error e => .error e
  | .ok n =>
    if u64InRange n then .ok (.counter64 n)
    else .error (.rangeError "Counter64 value out of range")

/-- Embedding of `convert_to_gauge32`; modelled from the spec: unsigned
32-bit range, `RangeError` outside it. -/
def convert_to_gauge32 (v : RawValue) : Except Err SnmpObj :=
  match coerceToInt v with
  | .error e => .error e
  | .ok n =>
    if u32InRange n then .ok (.gauge32 n)
    else .error (.rangeError "Gauge32 value out of range")

/-- Embedding of `convert_to_unsigned32`; modelled from the spec: unsigned
32-bit range, `RangeError` outside it. -/
def convert_to_unsigned32 (v : RawValue) : Except Err SnmpObj :=
  match coerceToInt v with
  | .error e => .error e
  | .ok n =>
    if u32InRange n then .ok (.unsigned32 n)
    else .error (.rangeError "Unsigned32 value out of range")

/-- Embedding of `convert_to_timeticks`; modelled from the spec: unsigned
32-bit range, `RangeError` outside it. -/
def convert_to_timeticks (v : RawValue) : Except Err SnmpObj :=
  match coerceToInt v with
  | .error e => .error e
  | .ok n =>
    if u32InRange n then .ok (.timeTicks n)
    else .error (.rangeError "TimeTicks value out of range")

/-- The tags of the Value Codec. -/
inductive SnmpTag where
  | octetString
  | integer
  | integer32
  | counter32
  | counter64
  | gauge32
  | unsigned32
  | timeTicks
deriving DecidableEq, Repr

/-- `encode(tag, rawValue)` of the Value Codec: dispatch to the matching
conversion helper. -/
def encode (t : SnmpTag) (v : RawValue) : Except Err SnmpObj :=
  match t with
  | .octetString => convert_to_octetstring v
  | .integer => convert_to_integer v
  | .integer32 => convert_to_integer32 v
  | .counter32 => convert_to_counter32 v
  | .counter64 => convert_to_counter64 v
  | .gauge32 => convert_to_gauge32 v
  | .unsigned32 => convert_to_unsigned32 v
  | .timeTicks => convert_to_timeticks v

/-- Modelled from the spec: `decode(wireBytes, tag) -> rawValue`, the
inverse of `encode`; absent from the source (GET returns `prettyOut`),
so it follows the spec's words — extract the raw value when the variant
matches the tag, fail with `FormatError` otherwise. -/
def decode (o : SnmpObj) (t : SnmpTag) : Except Err RawValue :=
  match t, o with
  | .octetString, .octetString s => .ok (.str s)
  | .integer, .integer n => .ok (.int n)
  | .integer32, .integer32 n => .ok (.int n)
  | .counter32, .counter32 n => .ok (.int n)
  | .counter64, .counter64 n => .ok (.int n)
  | .gauge32, .gauge32 n => .ok (.int n)
  | .unsigned32, .unsigned32 n => .ok (.int n)
  | .timeTicks, .timeTicks n => .ok (.int n)
  | _, _ => .error (.formatError "value does not match the requested tag")

/-- The declared domain of each tag (spec section 3): byte strings for
OctetString, any integer for Integer, and the width-bounded integer ranges
for the constrained numeric tags. -/
def inDomain : SnmpTag → RawValue → Bool
  | .octetString, .str _ => true
  | .integer, .int _ => true
  | .integer32, .int n => i32InRange n
  | .counter32, .int n => u32InRange n
  | .counter64, .int n => u64InRange n
  | .gauge32, .int n => u32InRange n
  | .unsigned32, .int n => u32InRange n
  | .timeTicks, .int n => u32InRange n
  | _, _ => false

/-- Embedding of `set_octetstring(value)`: the method signature has no OID
parameter, and after the conversion the call `self.set(oid, value)` reads
the unbound name `oid`, raising `NameError` before any exchange. -/
def set_octetstring (_tr : SetTransport) (_s : Session) (value : RawValue) :
    Except Err Unit × List SetCall :=
  match convert_to_octetstring value with
  | .error e => (.error e, [])
  | .ok _ => (.error (.nameError "global name 'oid' is not defined"), [])

/-- Embedding of `set_integer(oid, value)`: convert, then delegate to
`set`. -/
def set_integer (tr : SetTransport) (s : Session) (oid : String) (value : RawValue) :
    Except Err Unit × List SetCall :=
  match convert_to_integer value with
  | .error e => (.error e, [])
  | .ok w => set tr s oid w

/-- Embedding of `set_integer32(oid, value)`. -/
def set_integer32 (tr : SetTransport) (s : Session) (oid : String) (value : RawValue) :
    Except Err Unit × List SetCall :=
  match convert_to_integer32 value with
  | .error e => (.error e, [])
  | .ok w => set tr s oid w

/-- Embedding of `set_counter32(oid, value)`. -/
def set_counter32 (tr : SetTransport) (s : Session) (oid : String) (value : RawValue) :
    Except Err Unit × List SetCall :=
  match convert_to_counter32 value with
  | .error e => (.error e, [])
  | .ok w => set tr s oid w

/-- Embedding of `set_counter64(oid, value)`. -/
def set_counter64 (tr : SetTransport) (s : Session) (oid : String) (value : RawValue) :
    Except Err Unit × List SetCall :=
  match convert_to_counter64 value with
  | .error e => (.error e, [])
  | .ok w => set tr s oid w

/-- Embedding of `set_gauge32(oid, value)`. -/
def set_gauge32 (tr : SetTransport) (s : Session) (oid : String) (value : RawValue) :
    Except Err Unit × List SetCall :=
  match convert_to_gauge32 value with
  | .error e => (.error e, [])
  | .ok w => set tr s oid w

/-- Embedding of `set_unsigned32(oid, value)`. -/
def set_unsigned32 (tr : SetTransport) (s : Session) (oid : String) (value : RawValue) :
    Except Err Unit × List SetCall :=
  match convert_to_unsigned32 value with
  | .error e => (.error e, [])
  | .ok w => set tr s oid w

/-- Embedding of `set_timeticks(oid, value)`. -/
def set_timeticks (tr : SetTransport) (s : Session) (oid : String) (value : RawValue) :
    Except Err Unit × List SetCall :=
  match convert_to_timeticks value with
  | .error e => (.error e, [])
  | .ok w => set tr s oid w

/-- Spec-side composition for the convenience wrappers (section 4.4):
encode via the tag's codec, then delegate to `set` on the same OID
expression. -/
def specTypedSet (t : SnmpTag) (tr : SetTransport) (s : Session) (oid : String)
    (value : RawValue) : Except Err Unit × List SetCall :=
  match encode t value with
  | .error e => (.error e, [])
  | .ok w => set tr s oid w

/-- A successful, empty-binding response. -/
def respOk : SnmpResponse :=
  { errorIndication := none, errorStatus := { val := 0, pretty := "noError" },
    varBinds := [] }

/-- A response whose agent reported error status 2 (`noSuchName`). -/
def respNoSuchName : SnmpResponse :=
  { errorIndication := none, errorStatus := { val := 2, pretty := "noSuchName" },
    varBinds := [] }

/-- A response carrying a non-null error indication (a request timeout)
with a zero error status, as pysnmp produces on transport failure. -/
def respTimeout : SnmpResponse :=
  { errorIndication := some "requestTimedOut",
    errorStatus := { val := 0, pretty := "noError" }, varBinds := [] }

/-- A GET transport that always times out. -/
def trGetTimeout : GetTransport := fun _ _ _ _ => respTimeout

/-- A GET transport whose agent returns the distinguished Null value for
`sysDescr.0`. -/
def trGetNull : GetTransport := fun _ _ _ _ =>
  { errorIndication := none, errorStatus := { val := 0, pretty := "noError" },
    varBinds := [([1, 3, 6, 1, 2, 1, 1, 1, 0], SnmpObj.null)] }

/-- A SET transport that always succeeds. -/
def trSetOk : SetTransport := fun _ _ _ _ _ => respOk

/-- A SET transport whose agent always reports `noSuchName`. -/
def trSetNoSuchName : SetTransport := fun _ _ _ _ _ => respNoSuchName

/-- A SET transport that always times out (non-null indication, zero
status). -/
def trSetTimeout : SetTransport := fun _ _ _ _ _ => respTimeout

/-- A SET transport that reports back, as the error status, the port it was
addressed on — a probe telling which port the exchange used. -/
def trSetProbePort : SetTransport := fun _ p _ _ _ =>
  { errorIndication := none, errorStatus := { val := p, pretty := toString p },
    varBinds := [] }

/-- A session configured as in the source's self-test: host
`10.0.111.112`, default port, community `private`. -/
def sessionCfg : Session :=
  set_community_string (set_host initSession "10.0.111.112" 161) "private"

/-- A session whose community is set but whose host never was. -/
def sessionNoHost : Session :=
  set_community_string initSession "public"

/-- A session configured with a non-default port 999. -/
def sessionPort999 : Session :=
  set_community_string (set_host initSession "10.0.111.112" 999) "private"

/-- A filesystem oracle on which exactly `/usr/share/mibs` exists. -/
def mibFs : String → Bool := fun p => p == "/usr/share/mibs"

instance exceptDecEq {ε α : Type} [DecidableEq ε] [DecidableEq α] :
    DecidableEq (Except ε α) := fun x y =>
  match x, y with
  | .ok a, .ok b => if h : a = b then .isTrue (by rw [h]) else .isFalse (by simp [h])
  | .error a, .error b =>
    if h : a = b then .isTrue (by rw [h]) else .isFalse (by simp [h])
  | .ok _, .error _ => .isFalse (by simp)
  | .error _, .ok _ => .isFalse (by simp)

theorem splitOnChar_ne_nil (c : Char) (l : List Char) : splitOnChar c l ≠ [] := by
  cases l with
  | nil => simp [splitOnChar]
  | cons x xs =>
    simp only [splitOnChar]
    by_cases h : x = c
    · simp [h]
    · simp only [if_neg h]
      cases splitOnChar c xs <;> simp

theorem splitOnChar_eq_splitOnce (c : Char) (l : List Char) :
    splitOnChar c l =
      (match splitOnceChar c l with
        | none => [l]
        | some (a, r) => a :: splitOnChar c r) := by
  induction l with
  | nil => rfl
  | cons x xs ih =>
    by_cases h : x = c
    · simp [splitOnChar, splitOnceChar, h]
    · simp only [splitOnChar, splitOnceChar, if_neg h]
      cases hx : splitOnceChar c xs with
      | none =>
        rw [ih, hx]
        simp
      | some p =>
        rw [ih, hx]
        cases p
        simp

theorem parseSymPart_eq_resolveSymSpec (mib sym : List Char) :
    parseSymPart mib sym = resolveSymSpec mib sym := by
  unfold parseSymPart resolveSymSpec
  cases hx : splitOnceChar '.' sym with
  | none =>
    rw [splitOnChar_eq_splitOnce, hx]
  | some p =>
    obtain ⟨s1, sfx⟩ := p
    rw [splitOnChar_eq_splitOnce, hx]
    cases hs : splitOnChar '.' sfx with
    | nil => exact absurd hs (splitOnChar_ne_nil '.' sfx)
    | cons a rest => simp [hs]

theorem parse_oid_chars_nodot_bare (l : List Char)
    (h1 : splitOnce2 ':' ':' l = none) (h2 : splitOnceChar '.' l = none) :
    parse_oid_chars l =
      Except.error (Err.valueError "need more than 1 value to unpack") := by
  cases l with
  | nil => simp [parse_oid_chars, parseSymPart, splitOnceChar, splitOnce2]
  | cons x xs =>
    have hx : x ≠ '.' := by
      intro hc
      rw [hc] at h2
      simp [splitOnceChar] at h2
    simp only [parse_oid_chars, h1]
    split
    · next rest heq =>
      exact absurd (List.head_eq_of_cons_eq heq) hx
    · simp [parseSymPart, h2]

theorem parse_oid_chars_nodot_module (l mib sym : List Char)
    (h1 : splitOnce2 ':' ':' l = some (mib, sym))
    (h2 : splitOnceChar '.' sym = none) :
    parse_oid_chars l =
      Except.error (Err.valueError "need more than 1 value to unpack") := by
  simp [parse_oid_chars, h1, parseSymPart, h2]

/-- C1 (amended): the resolver dispatches on the presence of `::` first,
then on a leading dot; the leading-dot branch maps every component after the
dot by `try_int`; each symbolic branch splits the symbol+suffix text on dots,
keeps the first segment as the symbol paired with the module (the text before
the first `::`, or empty), and maps the remaining segments by `try_int` —
provided a remaining segment exists; with no dot present the single-element
unpacking raises an unhandled `ValueError` instead of producing a tuple. -/
theorem c1_parse_oid_dispatch (l : List Char) :
    (∀ mib sym, splitOnce2 ':' ':' l = some (mib, sym) →
      parse_oid_chars l = resolveSymSpec mib sym)
    ∧ (splitOnce2 ':' ':' l = none → l.head? = some '.' →
      parse_oid_chars l = Except.ok ((splitOnChar '.' l.tail).map try_int))
    ∧ (splitOnce2 ':' ':' l = none → l.head? ≠ some '.' →
      parse_oid_chars l = resolveSymSpec [] l) := by
  refine ⟨?_, ?_, ?_⟩
  · intro mib sym h
    unfold parse_oid_chars
    rw [h]
    exact parseSymPart_eq_resolveSymSpec mib sym
  · intro h hd
    cases l with
    | nil => simp at hd
    | cons x xs =>
      simp only [List.head?, Option.some.injEq] at hd
      subst hd
      simp [parse_oid_chars, h]
  · intro h hd
    cases l with
    | nil =>
      simp [parse_oid_chars, parseSymPart, resolveSymSpec, splitOnceChar,
        splitOnChar, splitOnce2]
    | cons x xs =>
      have hx : x ≠ '.' := by
        intro hc
        subst hc
        exact hd rfl
      simp only [parse_oid_chars, h]
      split
      · next rest heq =>
        exact absurd (List.head_eq_of_cons_eq heq) hx
      · exact parseSymPart_eq_resolveSymSpec [] (x :: xs)

/-- C1 counterexample: on the dot-free symbolic expression `sysDescr` the
resolver does not produce the claimed one-pair tuple; parsing fails with the
Python `ValueError` from the single-element unpacking. -/
theorem c1_bare_symbol_counterexample :
    parse_oid_chars ("sysDescr").data
        = Except.error (Err.valueError "need more than 1 value to unpack")
    ∧ parse_oid_chars ("sysDescr").data
        ≠ Except.ok [OidComp.pair [] ("sysDescr").data] := by
  refine ⟨by rfl, ?_⟩
  intro hc
  rw [(by rfl : parse_oid_chars ("sysDescr").data
      = Except.error (Err.valueError "need more than 1 value to unpack"))] at hc
  exact Except.noConfusion hc

/-- C1 witness: the three branches at concrete inputs — a module-qualified
expression, a fully numeric leading-dot expression, and a bare
symbol+suffix expression. -/
theorem c1_parse_oid_dispatch_witness :
    parse_oid_chars ("SNMPv2-MIB::sysDescr.0").data
        = resolveSymSpec ("SNMPv2-MIB").data ("sysDescr.0").data
    ∧ parse_oid_chars (".1.3.6.1.2.1.1.1.0").data
        = Except.ok ((splitOnChar '.' (".1.3.6.1.2.1.1.1.0").data.tail).map try_int)
    ∧ parse_oid_chars ("sysDescr.0").data = resolveSymSpec [] ("sysDescr.0").data := by
  refine ⟨(c1_parse_oid_dispatch _).1 ("SNMPv2-MIB").data ("sysDescr.0").data (by decide),
    (c1_parse_oid_dispatch _).2.1 (by decide) (by decide),
    (c1_parse_oid_dispatch _).2.2 (by decide) (by decide)⟩

theorem parseSymPart_error (mib sym : List Char) (e : Err)
    (h : parseSymPart mib sym = .error e) : ∃ msg, e = .valueError msg := by
  unfold parseSymPart at h
  cases hx : splitOnceChar '.' sym with
  | none =>
    rw [hx] at h
    simp at h
    exact ⟨_, h.symm⟩
  | some p =>
    obtain ⟨a, b⟩ := p
    rw [hx] at h
    simp at h

theorem parse_oid_chars_error (l : List Char) (e : Err)
    (h : parse_oid_chars l = .error e) : ∃ msg, e = .valueError msg := by
  unfold parse_oid_chars at h
  cases hs : splitOnce2 ':' ':' l with
  | some p =>
    obtain ⟨a, b⟩ := p
    rw [hs] at h
    exact parseSymPart_error a b e h
  | none =>
    simp only [hs] at h
    cases l with
    | nil => exact parseSymPart_error [] [] e h
    | cons x xs =>
      split at h
      · exact Except.noConfusion h
      · exact parseSymPart_error [] _ e h

theorem get_parse_error (tr : GetTransport) (s : Session) (e : String) (err : Err)
    (hh : hostFalsy s.host = false) (hp : parse_oid_chars e.data = .error err) :
    get tr s e = (.error err, []) := by
  simp [get, hh, hp]

theorem set_parse_error (tr : SetTransport) (s : Session) (e : String) (v : SnmpObj)
    (err : Err) (hp : parse_oid_chars e.data = .error err) :
    set tr s e v = (.error err, []) := by
  simp [set, hp]

/-- C10: a symbolic OID expression with no dot after its symbol part — a
bare symbol with no dot at all, or a module-qualified one whose part after
`::` has no dot — makes `_parse_oid` fail with the Python `ValueError` from
the unconditional single-element unpacking; the error is outside the
documented taxonomy, and it propagates unchanged through `get` (once a host
is configured) and through `set`. -/
theorem c10_missing_suffix :
    (∀ l : List Char, splitOnce2 ':' ':' l = none → splitOnceChar '.' l = none →
      parse_oid_chars l
        = Except.error (Err.valueError "need more than 1 value to unpack"))
    ∧ (∀ l mib sym, splitOnce2 ':' ':' l = some (mib, sym) →
        splitOnceChar '.' sym = none →
      parse_oid_chars l
        = Except.error (Err.valueError "need more than 1 value to unpack"))
    ∧ (Err.valueError "need more than 1 value to unpack").isDocumented = false
    ∧ (∀ (tr : GetTransport) (s : Session) (e : String) (err : Err),
        hostFalsy s.host = false → parse_oid_chars e.data = Except.error err →
        get tr s e = (Except.error err, []))
    ∧ (∀ (tr : SetTransport) (s : Session) (e : String) (v : SnmpObj) (err : Err),
        parse_oid_chars e.data = Except.error err →
        set tr s e v = (Except.error err, [])) := by
  exact ⟨parse_oid_chars_nodot_bare, parse_oid_chars_nodot_module, rfl,
    fun tr s e err hh hp => get_parse_error tr s e err hh hp,
    fun tr s e v err hp => set_parse_error tr s e v err hp⟩

/-- C10 witness: `get` on the bare `sysDescr` and `set` on
`SNMPv2-MIB::sysDescr` both surface the undocumented `ValueError`. -/
theorem c10_missing_suffix_witness :
    get trGetNull sessionCfg "sysDescr"
      = (Except.error (Err.valueError "need more than 1 value to unpack"), [])
    ∧ set trSetOk sessionCfg "SNMPv2-MIB::sysDescr" SnmpObj.null
      = (Except.error (Err.valueError "need more than 1 value to unpack"), []) := by
  refine ⟨c10_missing_suffix.2.2.2.1 trGetNull sessionCfg "sysDescr" _ (by decide)
      (c10_missing_suffix.1 ("sysDescr").data (by decide) (by decide)),
    c10_missing_suffix.2.2.2.2 trSetOk sessionCfg "SNMPv2-MIB::sysDescr" SnmpObj.null _
      (c10_missing_suffix.2.1 ("SNMPv2-MIB::sysDescr").data ("SNMPv2-MIB").data
        ("sysDescr").data (by decide) (by decide))⟩

/-- C2: with an exchange yielding the non-null error indication
`requestTimedOut` (error status 0), GET fails with the Python `NameError`
from the unbound sentinel `Null` rather than a `TransportError`, while SET —
which binds the indication to `_` and never looks at it — reports success;
the indication handling is neither a `TransportError` nor identical between
the two operations. -/
theorem c2_error_indication_eval :
    (get trGetTimeout sessionCfg ".1.3.6.1.2.1.1.1.0").1
      = Except.error (Err.nameError "global name 'Null' is not defined")
    ∧ (set trSetTimeout sessionCfg ".1.3.6.1.2.1.1.6.0"
        (SnmpObj.octetString ("Test").data)).1 = Except.ok ()
    ∧ (Err.nameError "global name 'Null' is not defined").isDocumented = false := by
  exact ⟨rfl, rfl, rfl⟩

/-- C3 counterexample: with the host never configured, `set` does not fail
with the `No host set` error and does not refrain from the exchange — it
parses the OID, issues a transport exchange addressed to the unset host,
and reports success. -/
theorem c3_set_no_host_counterexample :
    set trSetOk sessionNoHost ".1.3.6.1.2.1.1.6.0" (SnmpObj.octetString ("Test").data)
      = (Except.ok (),
        [{ host := none, port := 161, community := some "public",
           oid := [.num 1, .num 3, .num 6, .num 1, .num 2, .num 1, .num 1,
             .num 6, .num 0],
           value := SnmpObj.octetString ("Test").data }]) := by
  rfl

/-- C3 (amended): `get` refuses to run before `setHost` — with a falsy host
it fails with the `No host set` error and performs no transport exchange,
whatever the transport would answer; `set` performs no such check: its
result is never that error, and whenever the OID expression parses it
issues its exchange regardless of the host configuration. -/
theorem c3_not_configured_amended :
    (∀ (tr : GetTransport) (s : Session) (e : String), hostFalsy s.host = true →
      get tr s e = (Except.error (Err.notConfigured "No host set"), []))
    ∧ (∀ (tr : SetTransport) (s : Session) (e : String) (v : SnmpObj) (msg : String),
      (set tr s e v).1 ≠ Except.error (Err.notConfigured msg))
    ∧ (∀ (tr : SetTransport) (s : Session) (e : String) (v : SnmpObj)
        (oid : List OidComp),
      parse_oid_chars e.data = Except.ok oid →
      (set tr s e v).2
        = [{ host := s.host, port := 161, community := s.community,
             oid := oid, value := v }]) := by
  refine ⟨?_, ?_, ?_⟩
  · intro tr s e hh
    simp [get, hh]
  · intro tr s e v msg hc
    cases hp : parse_oid_chars e.data with
    | error err =>
      rw [(set_parse_error tr s e v err hp ▸ rfl :
        (set tr s e v).1 = Except.error err)] at hc
      obtain ⟨m2, hm⟩ := parse_oid_chars_error _ _ hp
      rw [hm] at hc
      simp at hc
    | ok oid =>
      simp only [set, hp] at hc
      split at hc <;> simp_all
  · intro tr s e v oid hp
    simp only [set, hp]
    split <;> rfl

/-- C3 witness: the amended statement at a concrete unconfigured session —
`get` fails closed with no exchange, `set` succeeds and issues one
exchange. -/
theorem c3_not_configured_amended_witness :
    get trGetNull sessionNoHost ".1.3.6.1.2.1.1.1.0"
      = (Except.error (Err.notConfigured "No host set"), [])
    ∧ (set trSetOk sessionNoHost ".1.3.6.1.2.1.1.6.0" SnmpObj.null).1
      ≠ Except.error (Err.notConfigured "No host set")
    ∧ (set trSetOk sessionNoHost ".1.3.6.1.2.1.1.6.0" SnmpObj.null).2
      = [{ host := none, port := 161, community := some "public",
           oid := [.num 1, .num 3, .num 6, .num 1, .num 2, .num 1, .num 1,
             .num 6, .num 0],
           value := SnmpObj.null }] := by
  refine ⟨c3_not_configured_amended.1 trGetNull sessionNoHost _ (by decide),
    c3_not_configured_amended.2.1 trSetOk sessionNoHost _ SnmpObj.null "No host set",
    c3_not_configured_amended.2.2 trSetOk sessionNoHost ".1.3.6.1.2.1.1.6.0"
      SnmpObj.null
      [.num 1, .num 3, .num 6, .num 1, .num 2, .num 1, .num 1, .num 6, .num 0]
      (by decide)⟩

/-- C6: a successful exchange (null indication, zero status) whose single
binding carries the distinguished Null value makes GET fail with the Python
`NameError` from the unbound sentinel `Null` — not with the
ObjectNotFoundError naming the numeric OID: the value translation below the
broken indication check is unreachable. -/
theorem c6_null_value_eval :
    (get trGetNull sessionCfg ".1.3.6.1.2.1.1.1.0").1
      = Except.error (Err.nameError "global name 'Null' is not defined")
    ∧ Err.nameError "global name 'Null' is not defined"
      ≠ Err.objectNotFound "Object with OID \".1.3.6.1.2.1.1.1.0\" not found" := by
  exact ⟨rfl, by decide⟩

/-- C7 counterexample: with the session configured on port 999, the single
SET exchange is addressed to port 161, not to the configured port — the
probe transport echoes back the port it was called on. -/
theorem c7_port_counterexample :
    sessionPort999.port = 999
    ∧ (set trSetProbePort sessionPort999 ".1.3.6.1.4.1.15000.5.2.1.0"
        (SnmpObj.gauge32 200)).2.map SetCall.port = [161]
    ∧ (set trSetProbePort sessionPort999 ".1.3.6.1.4.1.15000.5.2.1.0"
        (SnmpObj.gauge32 200)).1
      = Except.error (Err.agentError "SNMP SET failed: 161") := by
  exact ⟨rfl, rfl, rfl⟩

/-- C7 (amended): every SET exchange is addressed to the configured host
and community but always to port 161, whatever port was configured — its
result never depends on the transport's behaviour at any other port — while
GET exchanges are addressed to the configured host, port and community. -/
theorem c7_addressing_amended :
    (∀ (tr : SetTransport) (s : Session) (e : String) (v : SnmpObj)
        (oid : List OidComp),
      parse_oid_chars e.data = Except.ok oid →
      (set tr s e v).2
        = [{ host := s.host, port := 161, community := s.community,
             oid := oid, value := v }]
      ∧ set tr s e v = set (fun h _p c o w => tr h 161 c o w) s e v)
    ∧ (∀ (tr : GetTransport) (s : Session) (e : String) (oid : List OidComp),
      hostFalsy s.host = false → parse_oid_chars e.data = Except.ok oid →
      (get tr s e).2
        = [{ host := s.host, port := s.port, community := s.community,
             oid := oid }]) := by
  constructor
  · intro tr s e v oid hp
    constructor
    · simp only [set, hp]
      split <;> rfl
    · simp only [set, hp]
  · intro tr s e oid hh hp
    simp [get, hh, hp]

/-- C7 witness: a session on port 999 — the SET exchange goes to port 161,
the GET exchange to port 999. -/
theorem c7_addressing_amended_witness :
    (set trSetOk sessionPort999 ".1.3.0" SnmpObj.null).2
      = [{ host := some "10.0.111.112", port := 161, community := some "private",
           oid := [.num 1, .num 3, .num 0], value := SnmpObj.null }]
    ∧ (get trGetNull sessionPort999 ".1.3.0").2
      = [{ host := some "10.0.111.112", port := 999, community := some "private",
           oid := [.num 1, .num 3, .num 0] }] := by
  refine ⟨(c7_addressing_amended.1 trSetOk sessionPort999 ".1.3.0" SnmpObj.null
      [.num 1, .num 3, .num 0] (by decide)).1,
    c7_addressing_amended.2 trGetNull sessionPort999 ".1.3.0"
      [.num 1, .num 3, .num 0] (by decide) (by decide)⟩

/-- C4: `addMibSearchPath` with a nonexistent path fails with the
PathNotFoundError naming the path and returns the session unchanged — the
failed call appends nothing; with an existing path it succeeds and the
search path becomes exactly the old list with the one new entry appended at
the end, preserving the prior order. -/
theorem c4_add_mib_search_path (pathExists : String → Bool) (s : Session)
    (p : String) :
    (pathExists p = false →
      add_mib_search_path pathExists s p
        = (s, some (Err.pathNotFound ("Path \"" ++ p ++ "\" does not exist"))))
    ∧ (pathExists p = true →
      add_mib_search_path pathExists s p
        = ({ s with mibPath := s.mibPath ++ [p] }, none)
      ∧ (add_mib_search_path pathExists s p).1.mibPath.length
        = s.mibPath.length + 1) := by
  constructor
  · intro h
    simp [add_mib_search_path, h]
  · intro h
    constructor
    · simp [add_mib_search_path, h]
    · simp [add_mib_search_path, h]

/-- C4 witness: on a filesystem where only `/usr/share/mibs` exists, adding
`/does/not/exist` fails and leaves the session untouched, and adding
`/usr/share/mibs` appends exactly that entry. -/
theorem c4_add_mib_search_path_witness :
    add_mib_search_path mibFs sessionCfg "/does/not/exist"
      = (sessionCfg, some (Err.pathNotFound "Path \"/does/not/exist\" does not exist"))
    ∧ add_mib_search_path mibFs sessionCfg "/usr/share/mibs"
      = ({ sessionCfg with mibPath := ["/usr/share/mibs"] }, none) := by
  refine ⟨(c4_add_mib_search_path mibFs sessionCfg "/does/not/exist").1 (by decide), ?_⟩
  exact ((c4_add_mib_search_path mibFs sessionCfg "/usr/share/mibs").2 (by decide)).1

/-- C5: seven of the typed convenience wrappers — `set_integer`,
`set_integer32`, `set_counter32`, `set_counter64`, `set_gauge32`,
`set_unsigned32`, `set_timeticks` — are exactly the spec's
encode-then-delegate-to-`set` composition on the same OID expression;
`set_octetstring`, however, has no OID parameter at all and, after
converting its value, raises the Python `NameError` for the unbound name
`oid` without ever delegating to `set` or exchanging anything. -/
theorem c5_wrappers_delegation :
    (∀ (tr : SetTransport) (s : Session) (oid : String) (v : RawValue),
      set_integer tr s oid v = specTypedSet .integer tr s oid v
      ∧ set_integer32 tr s oid v = specTypedSet .integer32 tr s oid v
      ∧ set_counter32 tr s oid v = specTypedSet .counter32 tr s oid v
      ∧ set_counter64 tr s oid v = specTypedSet .counter64 tr s oid v
      ∧ set_gauge32 tr s oid v = specTypedSet .gauge32 tr s oid v
      ∧ set_unsigned32 tr s oid v = specTypedSet .unsigned32 tr s oid v
      ∧ set_timeticks tr s oid v = specTypedSet .timeTicks tr s oid v)
    ∧ (∀ (tr : SetTransport) (s : Session) (v : List Char),
      set_octetstring tr s (RawValue.str v)
        = (Except.error (Err.nameError "global name 'oid' is not defined"), [])) := by
  exact ⟨fun tr s oid v => ⟨rfl, rfl, rfl, rfl, rfl, rfl, rfl⟩, fun tr s v => rfl⟩

/-- C8: Integer32 encoding succeeds at exactly `2^31 - 1` and `-2^31` and
fails with RangeError at `2^31` and `-2^31 - 1`; Counter32, Counter64,
Gauge32 and Unsigned32 encoding fails with RangeError on every negative
input. -/
theorem c8_range_boundaries :
    convert_to_integer32 (.int (2 ^ 31 - 1)) = Except.ok (.integer32 (2 ^ 31 - 1))
    ∧ convert_to_integer32 (.int (-(2 ^ 31))) = Except.ok (.integer32 (-(2 ^ 31)))
    ∧ convert_to_integer32 (.int (2 ^ 31))
      = Except.error (Err.rangeError "Integer32 value out of range")
    ∧ convert_to_integer32 (.int (-(2 ^ 31) - 1))
      = Except.error (Err.rangeError "Integer32 value out of range")
    ∧ (∀ n : Int, n < 0 →
      convert_to_counter32 (.int n)
        = Except.error (Err.rangeError "Counter32 value out of range")
      ∧ convert_to_counter64 (.int n)
        = Except.error (Err.rangeError "Counter64 value out of range")
      ∧ convert_to_gauge32 (.int n)
        = Except.error (Err.rangeError "Gauge32 value out of range")
      ∧ convert_to_unsigned32 (.int n)
        = Except.error (Err.rangeError "Unsigned32 value out of range")) := by
  refine ⟨rfl, rfl, rfl, rfl, ?_⟩
  intro n hn
  have h32 : u32InRange n = false := by
    unfold u32InRange
    rw [decide_eq_false (show ¬(0 ≤ n) by omega), Bool.false_and]
  have h64 : u64InRange n = false := by
    unfold u64InRange
    rw [decide_eq_false (show ¬(0 ≤ n) by omega), Bool.false_and]
  exact ⟨by simp [convert_to_counter32, coerceToInt, h32],
    by simp [convert_to_counter64, coerceToInt, h64],
    by simp [convert_to_gauge32, coerceToInt, h32],
    by simp [convert_to_unsigned32, coerceToInt, h32]⟩

/-- C8 witness: the negative-input rejection at `n = -1` for all four
unsigned types, alongside the Integer32 boundary facts. -/
theorem c8_range_boundaries_witness :
    convert_to_integer32 (.int 2147483647) = Except.ok (.integer32 2147483647)
    ∧ convert_to_counter32 (.int (-1))
      = Except.error (Err.rangeError "Counter32 value out of range")
    ∧ convert_to_counter64 (.int (-1))
      = Except.error (Err.rangeError "Counter64 value out of range")
    ∧ convert_to_gauge32 (.int (-1))
      = Except.error (Err.rangeError "Gauge32 value out of range")
    ∧ convert_to_unsigned32 (.int (-1))
      = Except.error (Err.rangeError "Unsigned32 value out of range") := by
  have h := c8_range_boundaries.2.2.2.2 (-1) (by decide)
  exact ⟨c8_range_boundaries.1, h.1, h.2.1, h.2.2.1, h.2.2.2⟩

/-- C9: for every tag and every raw value inside that tag's declared domain,
decoding the encoding under the same tag returns the value unchanged. -/
theorem c9_roundtrip (t : SnmpTag) (v : RawValue) (h : inDomain t v = true) :
    (encode t v).bind (fun w => decode w t) = Except.ok v := by
  cases t <;> cases v <;>
    simp_all [inDomain, encode, decode, convert_to_octetstring, convert_to_integer,
      convert_to_integer32, convert_to_counter32, convert_to_counter64,
      convert_to_gauge32, convert_to_unsigned32, convert_to_timeticks,
      coerceToInt, Except.bind]

/-- C9 witness: concrete round trips — an octet string, an in-range
Integer32, and an in-range Counter64. -/
theorem c9_roundtrip_witness :
    inDomain .octetString (.str ("Test").data) = true
    ∧ (encode .octetString (.str ("Test").data)).bind
        (fun w => decode w .octetString) = Except.ok (.str ("Test").data)
    ∧ inDomain .integer32 (.int (-2147483648)) = true
    ∧ (encode .integer32 (.int (-2147483648))).bind
        (fun w => decode w .integer32) = Except.ok (.int (-2147483648))
    ∧ inDomain .counter64 (.int 18446744073709551615) = true
    ∧ (encode .counter64 (.int 18446744073709551615)).bind
        (fun w => decode w .counter64) = Except.ok (.int 18446744073709551615) := by
  refine ⟨by decide, c9_roundtrip .octetString _ (by decide),
    by decide, c9_roundtrip .integer32 _ (by decide),
    by decide, c9_roundtrip .counter64 _ (by decide)⟩

end SnmpLib
